import Mathlib

/-!
Verification of the reference-counted mount orchestrator of the
docker-volume-vsphere plugin.

The Go sources are shallowly embedded: the request/response shapes of the
docker volume-plugin helper library become plain structures, Go maps become
association lists with last-write-wins update, the `VolumeImpl` backend
interface becomes a structure of functions, and each driver operation becomes
a pure function from the driver state (and its collaborators) to an outcome
record that also carries instrumentation flags recording which physical
backend primitives were invoked.

The repository contains several revisions of the same driver file; the
embeddings below are grouped by source file:
  * namespace `part005` — the driver revision using a `mountIDtoName` map
    (VolumeDriver.Unmount with deferred-unmount handling).
  * namespace `part000` — the driver revision using a `mountedVols`
    tracking table (`getVolImplWithFSType`, `Create`, `Remove`, `Mount`).
  * the `plugin_utils` helpers (`GetMountInfo`, `AlreadyMounted`,
    `GetNameFromRefmap`, `GetFullNameAndMeta`) at top level.
-/

set_option autoImplicit false

namespace DVS

/-- `volume.Response` of the go-plugins-helpers library: only the fields the
driver code reads or writes (`Mountpoint`, `Err`, plus the volume list used
by `List`) are modelled. -/
structure Response where
  mountpoint : String := ""
  err : String := ""
  deriving DecidableEq, Repr

/-- `volume.MountRequest`: a volume name and a mount ID. -/
structure MountRequest where
  name : String
  id : String
  deriving DecidableEq, Repr

/-- `volume.UnmountRequest`: a volume name and a mount ID. -/
structure UnmountRequest where
  name : String
  id : String
  deriving DecidableEq, Repr

/-- `volume.Request`: a volume name plus the options map. -/
structure Request where
  name : String
  options : List (String × String)
  deriving DecidableEq, Repr

/-- The `VolumeImpl` backend capability set (volumeimpl.go), as a structure
of functions.  `mount` receives the request together with the resolved full
volume name (standing for the `volInfo` argument some revisions pass). -/
structure VolumeImpl where
  isMounted : String → Bool
  getMountPoint : String → String
  mount : MountRequest → String → Response
  umount : UnmountRequest → Response
  remove : Request → Response
  create : Request → Response
  isKnownDS : String → Bool

/-- `config.RemoteDir`: a network shared folder description. Only `Fstype`
is read by the driver code under verification; the remaining fields are kept
for fidelity to the source structure. -/
structure RemoteDir where
  addr : String := ""
  args : String := ""
  path : String := ""
  fstype : String := ""
  volPath : String := ""
  src : String := ""
  deriving DecidableEq, Repr

/-- `MountedVolume` (driver revisions with a tracking table): the mount IDs
that attached to the volume and the backing FS type. -/
structure MountedVolume where
  mountIDs : List String
  fsType : String
  deriving DecidableEq, Repr

/-- Go `delete(m, k)`: remove the key from an association list. -/
def eraseKey {α : Type} (k : String) (l : List (String × α)) : List (String × α) :=
  l.filter (fun p => p.1 ≠ k)

/-- Go `m[k] = v`: last-write-wins update of an association list. -/
def upsert {α : Type} (k : String) (v : α) (l : List (String × α)) : List (String × α) :=
  (k, v) :: eraseKey k l

/-- Modelled from the spec: the `utils/refcount` package is not among the
provided source files, only its callers are.  Per spec §3/§4.1 the store
holds a volume-name-to-count mapping (absent entries read as zero) plus the
`initSucceeded` and `dirty` flags. -/
structure RefCountsMap where
  counts : String → Nat
  initSuccess : Bool
  isDirty : Bool

/-- Modelled from the spec: `GetCount(name)` returns the current count,
0 if absent; never fails. -/
def RefCountsMap.GetCount (rc : RefCountsMap) (name : String) : Nat :=
  rc.counts name

/-- Modelled from the spec: `Incr(name)` atomically increments and returns
the new value. -/
def RefCountsMap.Incr (rc : RefCountsMap) (name : String) : Nat × RefCountsMap :=
  let n := rc.counts name + 1
  (n, { rc with counts := fun m => if m = name then n else rc.counts m })

/-- Modelled from the spec: `Decr(name)` fails with `Underflow` if the count
is already zero/absent (the count is left untouched and 0 is reported);
otherwise it atomically decrements and returns the new value. -/
def RefCountsMap.Decr (rc : RefCountsMap) (name : String) : Nat × RefCountsMap × Option String :=
  if rc.counts name = 0 then
    (0, rc, some "Underflow")
  else
    let n := rc.counts name - 1
    (n, { rc with counts := fun m => if m = name then n else rc.counts m }, none)

/-- Modelled from the spec: `MarkDirty()` sets the dirty flag. -/
def RefCountsMap.MarkDirty (rc : RefCountsMap) : RefCountsMap :=
  { rc with isDirty := true }

/-- Modelled from the spec: `ClearDirty()` clears the dirty flag. -/
def RefCountsMap.ClearDirty (rc : RefCountsMap) : RefCountsMap :=
  { rc with isDirty := false }

/-- Modelled from the spec: `GetInitSuccess()` reads `initSucceeded`. -/
def RefCountsMap.GetInitSuccess (rc : RefCountsMap) : Bool :=
  rc.initSuccess

/-- Go `strings.Split` for a single-character separator, written by
structural recursion over the character list so that it evaluates inside
the kernel. -/
def splitOnCharAux (c : Char) : List Char → List Char → List String
  | [], acc => [String.mk acc.reverse]
  | x :: xs, acc =>
    if x = c then String.mk acc.reverse :: splitOnCharAux c xs []
    else splitOnCharAux c xs (x :: acc)

/-- Go `strings.Split(s, sep)` with a one-character `sep`. -/
def splitOnChar (c : Char) (s : String) : List String :=
  splitOnCharAux c s.data []

/-- Split around every character satisfying the predicate (used for Go
`strings.Fields` below). -/
def splitPredAux (p : Char → Bool) : List Char → List Char → List String
  | [], acc => [String.mk acc.reverse]
  | x :: xs, acc =>
    if p x then String.mk acc.reverse :: splitPredAux p xs []
    else splitPredAux p xs (x :: acc)

/-- `getDSLabel` (driver): split the volume name on `@`; the second
component, when present, is the datastore label, otherwise `""`. -/
def GetDSLabel (name : String) : String :=
  let list := splitOnChar '@' name
  if h : 1 < list.length then list[1] else ""

namespace part005

/-- Mutable driver state of the `mountIDtoName` driver revision: the shared
refcount store and the map of mount IDs to full volume names. -/
structure DriverState where
  refCounts : RefCountsMap
  mountIDtoName : List (String × String)

/-- `getVolumeImpl`: network volumes must be qualified by a datastore label
the file backend knows; everything else goes to the block backend. -/
def getVolumeImpl (blkVol fileVol : VolumeImpl) (name : String) : VolumeImpl :=
  let dslabel := GetDSLabel name
  if dslabel ≠ "" ∧ fileVol.isKnownDS dslabel then fileVol else blkVol

/-- Outcome of `VolumeDriver.Unmount`: the response, the post state, and
whether the backend's physical unmount primitive was invoked. -/
structure UnmountOutcome where
  resp : Response
  state : DriverState
  physUnmountCalled : Bool

/-- `VolumeDriver.Unmount` of the `mountIDtoName` revision.  `getVolumeInfo`
stands for `plugin_utils.GetVolumeInfo` (not among the source files): it
resolves a request name to a full volume name or fails. -/
def VolumeDriver.Unmount (blkVol fileVol : VolumeImpl)
    (getVolumeInfo : String → Except String String)
    (st : DriverState) (r : UnmountRequest) : UnmountOutcome :=
  let volImpl := getVolumeImpl blkVol fileVol r.name
  if st.refCounts.GetInitSuccess ≠ true then
    { resp := {}, state := { st with refCounts := st.refCounts.MarkDirty },
      physUnmountCalled := false }
  else
    let resolved : Except String (String × DriverState) :=
      match st.mountIDtoName.lookup r.id with
      | some fname => .ok (fname, { st with mountIDtoName := eraseKey r.id st.mountIDtoName })
      | none =>
        match getVolumeInfo r.name with
        | .error e => .error e
        | .ok fname => .ok (fname, st)
    match resolved with
    | .error e => { resp := { err := e }, state := st, physUnmountCalled := false }
    | .ok (fname, st1) =>
      let dec := st1.refCounts.Decr fname
      let refcnt := dec.1
      let st2 := { st1 with refCounts := dec.2.1 }
      if refcnt ≥ 1 then
        { resp := {}, state := st2, physUnmountCalled := false }
      else
        { resp := volImpl.umount { name := fname, id := "" }, state := st2,
          physUnmountCalled := true }

end part005

namespace part000

/-- Mutable driver state of the tracking-table driver revision: the shared
refcount store, the `mountedVols` table (full volume name to `MountedVolume`)
and the configuration's `RemoteDirs` table (datastore label to `RemoteDir`).
The global `volumeBackingMap` (FS type to backend) is passed as the `vbm`
argument of each operation. -/
structure DriverState where
  refCounts : RefCountsMap
  mountedVols : List (String × MountedVolume)
  remoteDirs : List (String × RemoteDir)

/-- `getVolImplWithFSType`: if the volume is in the mounted-volumes table,
reuse its recorded FS type; else, if the name carries a datastore label
found in the configured remote dirs, use that entry's FS type; else default
to the vmdk backend. -/
def getVolImplWithFSType (vbm : String → VolumeImpl) (st : DriverState)
    (name : String) : VolumeImpl × String :=
  match st.mountedVols.lookup name with
  | some mv => (vbm mv.fsType, mv.fsType)
  | none =>
    let dslabel := GetDSLabel name
    if dslabel ≠ "" then
      match st.remoteDirs.lookup dslabel with
      | some rdir => (vbm rdir.fstype, rdir.fstype)
      | none => (vbm "vmdk", "vmdk")
    else (vbm "vmdk", "vmdk")

/-- Outcome of `VolumeDriver.Create`: the response and the FS type whose
backend the request was dispatched to. -/
structure CreateOutcome where
  resp : Response
  dispatchKind : String

/-- `VolumeDriver.Create`: an explicit `type` option picks that backend;
else a datastore label found in the remote-dirs table picks its FS type;
else the vmdk backend creates the volume. -/
def VolumeDriver.Create (vbm : String → VolumeImpl) (st : DriverState)
    (r : Request) : CreateOutcome :=
  match r.options.lookup "type" with
  | some ftype => { resp := (vbm ftype).create r, dispatchKind := ftype }
  | none =>
    let dslabel := GetDSLabel r.name
    if dslabel ≠ "" then
      match st.remoteDirs.lookup dslabel with
      | some rdir => { resp := (vbm rdir.fstype).create r, dispatchKind := rdir.fstype }
      | none => { resp := (vbm "vmdk").create r, dispatchKind := "vmdk" }
    else { resp := (vbm "vmdk").create r, dispatchKind := "vmdk" }

/-- Outcome of `VolumeDriver.Remove`: the response and whether the resolved
backend's `Remove` was invoked. -/
structure RemoveOutcome where
  resp : Response
  backendCalled : Bool

/-- `VolumeDriver.Remove`: refuse with a "still mounted" error when the
reference count is non-zero; otherwise delegate to the resolved backend. -/
def VolumeDriver.Remove (vbm : String → VolumeImpl) (st : DriverState)
    (r : Request) : RemoveOutcome :=
  if st.refCounts.GetCount r.name ≠ 0 then
    { resp := { err := "Remove failure - volume is still mounted. " ++
        " volume=" ++ r.name ++ ", refcount=" ++ toString (st.refCounts.GetCount r.name) },
      backendCalled := false }
  else
    { resp := (getVolImplWithFSType vbm st r.name).1.remove r, backendCalled := true }

/-- Outcome of `VolumeDriver.Mount`: the response, the post state, and
whether the backend's physical mount primitive was invoked. -/
structure MountOutcome where
  resp : Response
  state : DriverState
  physMountCalled : Bool

/-- `VolumeDriver.Mount` of the tracking-table revision.  `getVolumeInfo`
stands for `plugin_utils.GetVolumeInfo` (not among the source files): it
resolves a request name to a full volume name or fails. -/
def VolumeDriver.Mount (vbm : String → VolumeImpl)
    (getVolumeInfo : String → Except String String)
    (st : DriverState) (r : MountRequest) : MountOutcome :=
  let impl := getVolImplWithFSType vbm st r.name
  let volImpl := impl.1
  let fstype := impl.2
  let rc1 := st.refCounts.MarkDirty
  match getVolumeInfo r.name with
  | .error e =>
    { resp := { err := e }, state := { st with refCounts := rc1 }, physMountCalled := false }
  | .ok fname =>
    let mv := (st.mountedVols.lookup fname).getD { mountIDs := [], fsType := "" }
    let mvols := upsert fname { mv with fsType := fstype } st.mountedVols
    let inc := rc1.Incr fname
    let refcnt := inc.1
    let rc2 := inc.2
    if refcnt > 1 ∨ volImpl.isMounted fname then
      { resp := { mountpoint := volImpl.getMountPoint fname },
        state := { st with refCounts := rc2, mountedVols := mvols },
        physMountCalled := false }
    else
      let response := volImpl.mount r fname
      if response.err ≠ "" then
        let rc3 := (rc2.Decr fname).2.1
        let rc4 := rc3.ClearDirty
        { resp := response,
          state := { st with refCounts := rc4, mountedVols := eraseKey fname mvols },
          physMountCalled := true }
      else
        { resp := response,
          state := { st with refCounts := rc2, mountedVols := mvols },
          physMountCalled := true }

end part000

/-- Go `strings.Fields`: split around runs of whitespace, dropping empty
pieces. -/
def goFields (s : String) : List String :=
  (splitPredAux (fun c => c.isWhitespace) s.data []).filter (fun t => t ≠ "")

/-- Join path components with `/` (Go `strings.Join(parts, "/")`). -/
def joinSlash : List String → String
  | [] => ""
  | [x] => x
  | x :: xs => x ++ "/" ++ joinSlash xs

/-- Modelled after Go `path/filepath.Dir` for slash-separated paths that are
already clean (as mount paths in the mount table are): everything before the
last `/`; `"."` when there is no slash, `"/"` for a direct child of the
root. -/
def goDir (p : String) : String :=
  let parts := splitOnChar '/' p
  if parts.length ≤ 1 then "."
  else
    let d := joinSlash parts.dropLast
    if d = "" then "/" else d

/-- Modelled after Go `path/filepath.Base` for slash-separated paths: the
last non-empty path component; `"."` for the empty path and `"/"` for a path
of only slashes. -/
def goBase (p : String) : String :=
  match (splitOnChar '/' p).filter (fun t => t ≠ "") with
  | [] => if p = "" then "." else "/"
  | l => l.getLastD ""

/-- One pass of the `GetMountInfo` loop over the remaining mount-table
lines: lines with fewer than two fields are skipped, lines whose mount
path's parent directory differs from the mount root are skipped, and every
other line records `base(mountPath) -> device` in the accumulated map. -/
def goMountLines (mountRoot : String) : List String → List (String × String) → List (String × String)
  | [], m => m
  | line :: rest, m =>
    match goFields line with
    | dev :: mpath :: _ =>
      if goDir mpath ≠ mountRoot then goMountLines mountRoot rest m
      else goMountLines mountRoot rest (upsert (goBase mpath) dev m)
    | _ => goMountLines mountRoot rest m

/-- `GetMountInfo` (plugin_utils): `data` is the result of reading
`/proc/mounts`.  On a read error the empty map is returned together with the
error; otherwise the mount-table lines are parsed as in `goMountLines`. -/
def GetMountInfo (data : Except String String) (mountRoot : String) :
    List (String × String) × Option String :=
  match data with
  | .error e => ([], some e)
  | .ok s => (goMountLines mountRoot (splitOnChar '\n' s) [], none)

/-- `AlreadyMounted` (also `CheckAlreadyMounted` in a sibling revision):
false when the mount table cannot be read, otherwise membership of the name
in the parsed map. -/
def AlreadyMounted (data : Except String String) (name : String) (mountRoot : String) : Bool :=
  let res := GetMountInfo data mountRoot
  match res.2 with
  | some _ => false
  | none => (res.1.lookup name).isSome

/-- `GetNameFromRefmap` loop body: walk the refmap names; skip names whose
part before `@` is not the requested bare name; on a second match return
`""`; otherwise remember the single match. -/
def refmapGo (volName : String) : List String → Nat → String → String
  | [], _, fullname => fullname
  | name :: rest, count, fullname =>
    if (splitOnChar '@' name).headD "" ≠ volName then refmapGo volName rest count fullname
    else if count > 0 then ""
    else refmapGo volName rest (count + 1) name

/-- `GetNameFromRefmap` (plugin_utils): the unique fully-qualified name in
the refmap whose bare part equals `volName`, or `""` when there is none or
more than one. -/
def GetNameFromRefmap (volName : String) (volumeNameList : List String) : String :=
  refmapGo volName volumeNameList 0 ""

/-- `GetDatastore` (plugin_utils): read the volume's metadata through the
driver (`getVolume` stands for the driver's `GetVolume`, whose body is empty
in the source) and extract its "datastore" entry. -/
def GetDatastore (name : String)
    (getVolume : String → Except String (List (String × String))) :
    Except String (String × List (String × String)) :=
  match getVolume name with
  | .error e => .error e
  | .ok volumeMeta => .ok ((volumeMeta.lookup "datastore").getD "", volumeMeta)

/-- `GetFullNameAndMeta` (plugin_utils): a name containing `@` is already
full; else a supplied datastore name is appended; else the refmap is
consulted; else the datastore is read from the volume metadata. -/
def GetFullNameAndMeta (name : String) (datastoreName : String)
    (volumeNameList : List String)
    (getVolume : String → Except String (List (String × String))) :
    Except String (String × Option (List (String × String))) :=
  if name.data.contains '@' then .ok (name, none)
  else if datastoreName ≠ "" then .ok (name ++ "@" ++ datastoreName, none)
  else
    let fullVolumeName := GetNameFromRefmap name volumeNameList
    if fullVolumeName ≠ "" then .ok (fullVolumeName, none)
    else
      match GetDatastore name getVolume with
      | .error e => .error e
      | .ok dsMeta => .ok (name ++ "@" ++ dsMeta.1, some dsMeta.2)

/-! Concrete fixtures used by the witness theorems. -/

/-- Benign concrete backend: nothing mounted, every call succeeds. -/
def testImpl : VolumeImpl where
  isMounted := fun _ => false
  getMountPoint := fun n => "/mnt/vmdk/" ++ n
  mount := fun _ fname => { mountpoint := "/mnt/vmdk/" ++ fname }
  umount := fun _ => {}
  remove := fun _ => {}
  create := fun _ => {}
  isKnownDS := fun _ => false

/-- Concrete backend whose physical mount fails. -/
def failImpl : VolumeImpl where
  isMounted := fun _ => false
  getMountPoint := fun n => "/mnt/vmdk/" ++ n
  mount := fun _ _ => { err := "physical mount failed" }
  umount := fun _ => { err := "physical unmount failed" }
  remove := fun _ => {}
  create := fun _ => {}
  isKnownDS := fun _ => false

/-! Claim theorems. -/

/-- C1: while `initSucceeded` is false, Unmount returns success, marks the
dirty flag, and leaves every volume's reference count and the mounted-volume
tracking table unchanged, performing no physical unmount. -/
theorem C1_deferred_unmount (blkVol fileVol : VolumeImpl)
    (gvi : String → Except String String) (st : part005.DriverState)
    (r : UnmountRequest) (h : st.refCounts.initSuccess = false) :
    (part005.VolumeDriver.Unmount blkVol fileVol gvi st r).resp.err = "" ∧
    (part005.VolumeDriver.Unmount blkVol fileVol gvi st r).state.refCounts.counts
      = st.refCounts.counts ∧
    (part005.VolumeDriver.Unmount blkVol fileVol gvi st r).state.refCounts.isDirty = true ∧
    (part005.VolumeDriver.Unmount blkVol fileVol gvi st r).state.mountIDtoName
      = st.mountIDtoName ∧
    (part005.VolumeDriver.Unmount blkVol fileVol gvi st r).physUnmountCalled = false := by
  simp [part005.VolumeDriver.Unmount, RefCountsMap.GetInitSuccess, RefCountsMap.MarkDirty, h]

/-- C1 witness: a concrete not-yet-recovered state. -/
theorem C1_deferred_unmount_witness :
    ({ counts := fun _ => 3, initSuccess := false, isDirty := false} :
        RefCountsMap).initSuccess = false ∧
    ((part005.VolumeDriver.Unmount testImpl testImpl (fun n => .ok n)
        { refCounts := { counts := fun _ => 3, initSuccess := false, isDirty := false },
          mountIDtoName := [("id1", "v@ds")] }
        { name := "v", id := "id1" }).resp.err = "" ∧
      (part005.VolumeDriver.Unmount testImpl testImpl (fun n => .ok n)
        { refCounts := { counts := fun _ => 3, initSuccess := false, isDirty := false },
          mountIDtoName := [("id1", "v@ds")] }
        { name := "v", id := "id1" }).state.refCounts.counts = (fun _ => 3) ∧
      (part005.VolumeDriver.Unmount testImpl testImpl (fun n => .ok n)
        { refCounts := { counts := fun _ => 3, initSuccess := false, isDirty := false },
          mountIDtoName := [("id1", "v@ds")] }
        { name := "v", id := "id1" }).state.refCounts.isDirty = true ∧
      (part005.VolumeDriver.Unmount testImpl testImpl (fun n => .ok n)
        { refCounts := { counts := fun _ => 3, initSuccess := false, isDirty := false },
          mountIDtoName := [("id1", "v@ds")] }
        { name := "v", id := "id1" }).state.mountIDtoName = [("id1", "v@ds")] ∧
      (part005.VolumeDriver.Unmount testImpl testImpl (fun n => .ok n)
        { refCounts := { counts := fun _ => 3, initSuccess := false, isDirty := false },
          mountIDtoName := [("id1", "v@ds")] }
        { name := "v", id := "id1" }).physUnmountCalled = false) :=
  ⟨rfl, C1_deferred_unmount _ _ _ _ _ rfl⟩

/-- C4: after recovery has succeeded, an Unmount whose decremented count is
still at least 1 returns success without a physical unmount; the call that
brings the count from 1 to 0 invokes the backend's physical unmount and
returns its result. -/
theorem C4_last_unmount_detaches (blkVol fileVol : VolumeImpl)
    (gvi : String → Except String String) (st : part005.DriverState)
    (r : UnmountRequest) (fname : String)
    (hinit : st.refCounts.initSuccess = true)
    (hres : st.mountIDtoName.lookup r.id = some fname)
    (hc : 1 ≤ st.refCounts.counts fname) :
    ((part005.VolumeDriver.Unmount blkVol fileVol gvi st r).physUnmountCalled = true
        ↔ st.refCounts.counts fname = 1) ∧
    (2 ≤ st.refCounts.counts fname →
      (part005.VolumeDriver.Unmount blkVol fileVol gvi st r).resp = ({} : Response) ∧
      (part005.VolumeDriver.Unmount blkVol fileVol gvi st r).state.refCounts.counts fname
        = st.refCounts.counts fname - 1) ∧
    (st.refCounts.counts fname = 1 →
      (part005.VolumeDriver.Unmount blkVol fileVol gvi st r).resp
        = (part005.getVolumeImpl blkVol fileVol r.name).umount { name := fname, id := "" } ∧
      (part005.VolumeDriver.Unmount blkVol fileVol gvi st r).state.refCounts.counts fname
        = 0) := by
  have hc0 : ¬ st.refCounts.counts fname = 0 := by omega
  simp only [part005.VolumeDriver.Unmount, RefCountsMap.GetInitSuccess, hinit, hres,
    RefCountsMap.Decr, hc0, if_false, ne_eq, not_true_eq_false, ite_false]
  by_cases h2 : 2 ≤ st.refCounts.counts fname
  · have hge : 1 ≤ st.refCounts.counts fname - 1 := by omega
    simp [hge, h2]
    omega
  · have h1 : st.refCounts.counts fname = 1 := by omega
    have hlt : ¬ 1 ≤ st.refCounts.counts fname - 1 := by omega
    simp [h1, hlt, h2]

/-- C4 witness: two concrete recovered states, one with count 2 (no physical
unmount) and the theorem applied at count 1 (physical unmount happens). -/
theorem C4_last_unmount_detaches_witness :
    (({ counts := fun _ => 1, initSuccess := true, isDirty := false } :
        RefCountsMap).initSuccess = true ∧
      ([("id1", "v@ds")] : List (String × String)).lookup "id1" = some "v@ds" ∧
      1 ≤ (fun (_ : String) => 1) "v@ds") ∧
    ((part005.VolumeDriver.Unmount testImpl testImpl (fun n => .ok n)
        { refCounts := { counts := fun _ => 1, initSuccess := true, isDirty := false },
          mountIDtoName := [("id1", "v@ds")] }
        { name := "v", id := "id1" }).physUnmountCalled = true
        ↔ (fun (_ : String) => 1) "v@ds" = 1) :=
  ⟨⟨rfl, rfl, by decide⟩,
    (C4_last_unmount_detaches testImpl testImpl (fun n => .ok n)
      { refCounts := { counts := fun _ => 1, initSuccess := true, isDirty := false },
        mountIDtoName := [("id1", "v@ds")] }
      { name := "v", id := "id1" } "v@ds" rfl rfl (by decide)).1⟩

/-- C5: a decrement that underflows (count already zero) is non-fatal: the
physical unmount is still attempted and the backend's result, not the
Underflow error, is returned. -/
theorem C5_underflow_nonfatal (blkVol fileVol : VolumeImpl)
    (gvi : String → Except String String) (st : part005.DriverState)
    (r : UnmountRequest) (fname : String)
    (hinit : st.refCounts.initSuccess = true)
    (hres : st.mountIDtoName.lookup r.id = some fname)
    (hc : st.refCounts.counts fname = 0) :
    (st.refCounts.Decr fname).2.2 = some "Underflow" ∧
    (part005.VolumeDriver.Unmount blkVol fileVol gvi st r).physUnmountCalled = true ∧
    (part005.VolumeDriver.Unmount blkVol fileVol gvi st r).resp
      = (part005.getVolumeImpl blkVol fileVol r.name).umount { name := fname, id := "" } := by
  refine ⟨by simp [RefCountsMap.Decr, hc], ?_⟩
  simp [part005.VolumeDriver.Unmount, RefCountsMap.GetInitSuccess, hinit, hres,
    RefCountsMap.Decr, hc]

/-- C5 witness: a concrete recovered state whose count for the volume is
already zero. -/
theorem C5_underflow_nonfatal_witness :
    (({ counts := fun _ => 0, initSuccess := true, isDirty := false } :
        RefCountsMap).initSuccess = true ∧
      ([("id1", "v@ds")] : List (String × String)).lookup "id1" = some "v@ds" ∧
      (fun (_ : String) => 0) "v@ds" = 0) ∧
    (part005.VolumeDriver.Unmount failImpl failImpl (fun n => .ok n)
      { refCounts := { counts := fun _ => 0, initSuccess := true, isDirty := false },
        mountIDtoName := [("id1", "v@ds")] }
      { name := "v", id := "id1" }).resp
      = (part005.getVolumeImpl failImpl failImpl "v").umount { name := "v@ds", id := "" } :=
  ⟨⟨rfl, rfl, rfl⟩,
    (C5_underflow_nonfatal failImpl failImpl (fun n => .ok n)
      { refCounts := { counts := fun _ => 0, initSuccess := true, isDirty := false },
        mountIDtoName := [("id1", "v@ds")] }
      { name := "v", id := "id1" } "v@ds" rfl rfl rfl).2.2⟩

/-- C10: when reading the OS mount table fails, `AlreadyMounted` reports
false — never an error and never true. -/
theorem C10_unreadable_mount_table (e name mountRoot : String) :
    AlreadyMounted (.error e) name mountRoot = false := rfl

/-- Looking up a key just erased from an association list finds nothing. -/
theorem lookup_eraseKey {α : Type} (k : String) (l : List (String × α)) :
    (eraseKey k l).lookup k = none := by
  induction l with
  | nil => rfl
  | cons p t ih =>
    obtain ⟨a, b⟩ := p
    rw [eraseKey, List.filter_cons]
    by_cases h : a = k
    · have hc : (decide ¬(a, b).1 = k) = false := by simp [h]
      rw [hc]
      exact ih
    · have hc : (decide ¬(a, b).1 = k) = true := by simp [h]
      rw [hc]
      have hbeq : (k == a) = false := beq_eq_false_iff_ne.mpr (Ne.symm h)
      simp only [if_true]
      simp only [List.lookup_cons, hbeq]
      exact ih

/-- C2: when the backend's physical mount fails, the increment is undone,
the dirty flag is cleared, the tracking-table entry is removed, and the
backend's error is the response. -/
theorem C2_mount_rollback (vbm : String → VolumeImpl)
    (gvi : String → Except String String) (st : part000.DriverState)
    (r : MountRequest) (fname : String)
    (hres : gvi r.name = .ok fname)
    (hcnt : st.refCounts.counts fname = 0)
    (hnotm : (part000.getVolImplWithFSType vbm st r.name).1.isMounted fname = false)
    (hfail : ((part000.getVolImplWithFSType vbm st r.name).1.mount r fname).err ≠ "") :
    (part000.VolumeDriver.Mount vbm gvi st r).state.refCounts.counts fname
      = st.refCounts.counts fname ∧
    (part000.VolumeDriver.Mount vbm gvi st r).state.refCounts.isDirty = false ∧
    (part000.VolumeDriver.Mount vbm gvi st r).state.mountedVols.lookup fname = none ∧
    (part000.VolumeDriver.Mount vbm gvi st r).resp
      = (part000.getVolImplWithFSType vbm st r.name).1.mount r fname ∧
    (part000.VolumeDriver.Mount vbm gvi st r).physMountCalled = true := by
  simp [part000.VolumeDriver.Mount, RefCountsMap.MarkDirty, RefCountsMap.Incr,
    RefCountsMap.Decr, RefCountsMap.ClearDirty, hres, hcnt, hnotm, hfail, lookup_eraseKey]

/-- C2 witness: a concrete state and a backend whose physical mount fails. -/
theorem C2_mount_rollback_witness :
    ((fun n => Except.ok n : String → Except String String) "v" = .ok "v" ∧
      (fun (_ : String) => 0) "v" = 0 ∧
      (part000.getVolImplWithFSType (fun _ => failImpl)
        { refCounts := { counts := fun _ => 0, initSuccess := true, isDirty := false },
          mountedVols := [], remoteDirs := [] } "v").1.isMounted "v" = false ∧
      ((part000.getVolImplWithFSType (fun _ => failImpl)
        { refCounts := { counts := fun _ => 0, initSuccess := true, isDirty := false },
          mountedVols := [], remoteDirs := [] } "v").1.mount { name := "v", id := "id1" }
          "v").err ≠ "") ∧
    ((part000.VolumeDriver.Mount (fun _ => failImpl) (fun n => .ok n)
        { refCounts := { counts := fun _ => 0, initSuccess := true, isDirty := false },
          mountedVols := [], remoteDirs := [] }
        { name := "v", id := "id1" }).state.refCounts.counts "v" = (fun (_ : String) => 0) "v" ∧
      (part000.VolumeDriver.Mount (fun _ => failImpl) (fun n => .ok n)
        { refCounts := { counts := fun _ => 0, initSuccess := true, isDirty := false },
          mountedVols := [], remoteDirs := [] }
        { name := "v", id := "id1" }).state.mountedVols.lookup "v" = none) :=
  ⟨⟨rfl, rfl, rfl, by decide⟩,
    (C2_mount_rollback (fun _ => failImpl) (fun n => .ok n)
      { refCounts := { counts := fun _ => 0, initSuccess := true, isDirty := false },
        mountedVols := [], remoteDirs := [] }
      { name := "v", id := "id1" } "v" rfl rfl rfl (by decide)).1,
    (C2_mount_rollback (fun _ => failImpl) (fun n => .ok n)
      { refCounts := { counts := fun _ => 0, initSuccess := true, isDirty := false },
        mountedVols := [], remoteDirs := [] }
      { name := "v", id := "id1" } "v" rfl rfl rfl (by decide)).2.2.1⟩

/-- C3: when the incremented count exceeds 1 or the backend already reports
the volume mounted, Mount performs no physical mount and returns the
backend-reported mount point. -/
theorem C3_at_most_one_physical_mount (vbm : String → VolumeImpl)
    (gvi : String → Except String String) (st : part000.DriverState)
    (r : MountRequest) (fname : String)
    (hres : gvi r.name = .ok fname)
    (hskip : st.refCounts.counts fname + 1 > 1 ∨
      (part000.getVolImplWithFSType vbm st r.name).1.isMounted fname = true) :
    (part000.VolumeDriver.Mount vbm gvi st r).physMountCalled = false ∧
    (part000.VolumeDriver.Mount vbm gvi st r).resp
      = { mountpoint := (part000.getVolImplWithFSType vbm st r.name).1.getMountPoint fname,
          err := "" } := by
  have h : (st.refCounts.MarkDirty.Incr fname).1 > 1 ∨
      (part000.getVolImplWithFSType vbm st r.name).1.isMounted fname = true := by
    simpa [RefCountsMap.Incr, RefCountsMap.MarkDirty] using hskip
  simp only [part000.VolumeDriver.Mount, hres]
  rw [if_pos]
  · exact ⟨rfl, rfl⟩
  · simpa using h

/-- C3 witness: a concrete state whose count for the volume is already 1. -/
theorem C3_at_most_one_physical_mount_witness :
    ((fun n => Except.ok n : String → Except String String) "v" = .ok "v" ∧
      ((fun (_ : String) => 1) "v" + 1 > 1 ∨
        (part000.getVolImplWithFSType (fun _ => testImpl)
          { refCounts := { counts := fun _ => 1, initSuccess := true, isDirty := false },
            mountedVols := [], remoteDirs := [] } "v").1.isMounted "v" = true)) ∧
    ((part000.VolumeDriver.Mount (fun _ => testImpl) (fun n => .ok n)
        { refCounts := { counts := fun _ => 1, initSuccess := true, isDirty := false },
          mountedVols := [], remoteDirs := [] }
        { name := "v", id := "id1" }).physMountCalled = false ∧
      (part000.VolumeDriver.Mount (fun _ => testImpl) (fun n => .ok n)
        { refCounts := { counts := fun _ => 1, initSuccess := true, isDirty := false },
          mountedVols := [], remoteDirs := [] }
        { name := "v", id := "id1" }).resp
        = { mountpoint := (part000.getVolImplWithFSType (fun _ => testImpl)
              { refCounts := { counts := fun _ => 1, initSuccess := true, isDirty := false },
                mountedVols := [], remoteDirs := [] } "v").1.getMountPoint "v",
            err := "" }) :=
  ⟨⟨rfl, Or.inl (by decide)⟩,
    C3_at_most_one_physical_mount (fun _ => testImpl) (fun n => .ok n)
      { refCounts := { counts := fun _ => 1, initSuccess := true, isDirty := false },
        mountedVols := [], remoteDirs := [] }
      { name := "v", id := "id1" } "v" rfl (Or.inl (by decide))⟩

/-- C6: Remove on a volume with a non-zero reference count returns an error
mentioning "volume is still mounted" and performs no backend call; on a
zero count it delegates to the resolved backend's Remove. -/
theorem C6_remove_guard (vbm : String → VolumeImpl) (st : part000.DriverState)
    (r : Request) :
    (st.refCounts.counts r.name ≠ 0 →
      (part000.VolumeDriver.Remove vbm st r).backendCalled = false ∧
      (part000.VolumeDriver.Remove vbm st r).resp.err ≠ "" ∧
      ∃ pre post, (part000.VolumeDriver.Remove vbm st r).resp.err
        = pre ++ "volume is still mounted." ++ post) ∧
    (st.refCounts.counts r.name = 0 →
      (part000.VolumeDriver.Remove vbm st r).backendCalled = true ∧
      (part000.VolumeDriver.Remove vbm st r).resp
        = (part000.getVolImplWithFSType vbm st r.name).1.remove r) := by
  constructor
  · intro h
    have h' : st.refCounts.GetCount r.name ≠ 0 := h
    simp only [part000.VolumeDriver.Remove]
    rw [if_pos h']
    refine ⟨rfl, ?_, ?_⟩
    · intro habs
      have hl := congrArg String.length habs
      simp only [String.length_append] at hl
      have hpos : 0 < ("Remove failure - volume is still mounted. ").length := by decide
      have h0 : ("" : String).length = 0 := rfl
      omega
    · refine ⟨"Remove failure - ",
        " " ++ (" volume=" ++ (r.name ++ (", refcount=" ++ toString (st.refCounts.counts r.name)))), ?_⟩
      simp only [← String.append_assoc]
      rfl
  · intro h
    simp [part000.VolumeDriver.Remove, RefCountsMap.GetCount, h]

/-- C6 witness: the guard branch at a concrete state with count 2. -/
theorem C6_remove_guard_witness :
    ((fun (_ : String) => 2) "v" ≠ 0 ∧
      (part000.VolumeDriver.Remove (fun _ => testImpl)
        { refCounts := { counts := fun _ => 2, initSuccess := true, isDirty := false },
          mountedVols := [], remoteDirs := [] }
        { name := "v", options := [] }).backendCalled = false) ∧
    (∃ pre post, (part000.VolumeDriver.Remove (fun _ => testImpl)
        { refCounts := { counts := fun _ => 2, initSuccess := true, isDirty := false },
          mountedVols := [], remoteDirs := [] }
        { name := "v", options := [] }).resp.err
        = pre ++ "volume is still mounted." ++ post) :=
  ⟨⟨by decide,
    ((C6_remove_guard (fun _ => testImpl)
      { refCounts := { counts := fun _ => 2, initSuccess := true, isDirty := false },
        mountedVols := [], remoteDirs := [] }
      { name := "v", options := [] }).1 (by decide)).1⟩,
    ((C6_remove_guard (fun _ => testImpl)
      { refCounts := { counts := fun _ => 2, initSuccess := true, isDirty := false },
        mountedVols := [], remoteDirs := [] }
      { name := "v", options := [] }).1 (by decide)).2.2⟩

/-- C7 counterexample: the name "v" is in the mounted-volume tracking table
with recorded backend kind "nfs", yet Create with an explicit `type=vmdk`
option dispatches to the vmdk backend — the recorded kind is not reused. -/
theorem C7_counterexample :
    ([("v", ({ mountIDs := [], fsType := "nfs" } : MountedVolume))] :
        List (String × MountedVolume)).lookup "v"
      = some { mountIDs := [], fsType := "nfs" } ∧
    (part000.VolumeDriver.Create (fun _ => testImpl)
      { refCounts := { counts := fun _ => 0, initSuccess := true, isDirty := false },
        mountedVols := [("v", { mountIDs := [], fsType := "nfs" })], remoteDirs := [] }
      { name := "v", options := [("type", "vmdk")] }).dispatchKind = "vmdk" ∧
    ("vmdk" : String) ≠ "nfs" := by
  refine ⟨rfl, rfl, by decide⟩

/-- C7 amended: resolution outside Create (`getVolImplWithFSType`) follows
tracking table > configured label > vmdk default; Create never consults the
tracking table and follows explicit type option > configured label > vmdk
default. -/
theorem C7_resolution_precedence (vbm : String → VolumeImpl)
    (st : part000.DriverState) (name : String) (r : Request) :
    (∀ mv, st.mountedVols.lookup name = some mv →
      (part000.getVolImplWithFSType vbm st name).2 = mv.fsType) ∧
    (st.mountedVols.lookup name = none → ∀ rdir, GetDSLabel name ≠ "" →
      st.remoteDirs.lookup (GetDSLabel name) = some rdir →
      (part000.getVolImplWithFSType vbm st name).2 = rdir.fstype) ∧
    (st.mountedVols.lookup name = none →
      (GetDSLabel name = "" ∨ st.remoteDirs.lookup (GetDSLabel name) = none) →
      (part000.getVolImplWithFSType vbm st name).2 = "vmdk") ∧
    (∀ ftype, r.options.lookup "type" = some ftype →
      (part000.VolumeDriver.Create vbm st r).dispatchKind = ftype) ∧
    (r.options.lookup "type" = none → ∀ rdir, GetDSLabel r.name ≠ "" →
      st.remoteDirs.lookup (GetDSLabel r.name) = some rdir →
      (part000.VolumeDriver.Create vbm st r).dispatchKind = rdir.fstype) ∧
    (r.options.lookup "type" = none →
      (GetDSLabel r.name = "" ∨ st.remoteDirs.lookup (GetDSLabel r.name) = none) →
      (part000.VolumeDriver.Create vbm st r).dispatchKind = "vmdk") := by
  refine ⟨?_, ?_, ?_, ?_, ?_, ?_⟩
  · intro mv h
    simp [part000.getVolImplWithFSType, h]
  · intro h rdir hl hr
    simp [part000.getVolImplWithFSType, h, hl, hr]
  · intro h hd
    rcases hd with hd | hd
    · simp [part000.getVolImplWithFSType, h, hd]
    · by_cases hl : GetDSLabel name = ""
      · simp [part000.getVolImplWithFSType, h, hl]
      · simp [part000.getVolImplWithFSType, h, hl, hd]
  · intro ftype h
    simp [part000.VolumeDriver.Create, h]
  · intro h rdir hl hr
    simp [part000.VolumeDriver.Create, h, hl, hr]
  · intro h hd
    rcases hd with hd | hd
    · simp [part000.VolumeDriver.Create, h, hd]
    · by_cases hl : GetDSLabel r.name = ""
      · simp [part000.VolumeDriver.Create, h, hl]
      · simp [part000.VolumeDriver.Create, h, hl, hd]

/-- C7 witness: the table branch and the Create option branch of the
precedence theorem at concrete inputs. -/
theorem C7_resolution_precedence_witness :
    (([("v", ({ mountIDs := [], fsType := "nfs" } : MountedVolume))] :
        List (String × MountedVolume)).lookup "v"
        = some { mountIDs := [], fsType := "nfs" } ∧
      ([("type", "vmdk")] : List (String × String)).lookup "type" = some "vmdk") ∧
    ((part000.getVolImplWithFSType (fun _ => testImpl)
        { refCounts := { counts := fun _ => 0, initSuccess := true, isDirty := false },
          mountedVols := [("v", { mountIDs := [], fsType := "nfs" })], remoteDirs := [] }
        "v").2 = "nfs" ∧
      (part000.VolumeDriver.Create (fun _ => testImpl)
        { refCounts := { counts := fun _ => 0, initSuccess := true, isDirty := false },
          mountedVols := [("v", { mountIDs := [], fsType := "nfs" })], remoteDirs := [] }
        { name := "v", options := [("type", "vmdk")] }).dispatchKind = "vmdk") :=
  ⟨⟨rfl, rfl⟩,
    (C7_resolution_precedence (fun _ => testImpl)
      { refCounts := { counts := fun _ => 0, initSuccess := true, isDirty := false },
        mountedVols := [("v", { mountIDs := [], fsType := "nfs" })], remoteDirs := [] }
      "v" { name := "v", options := [("type", "vmdk")] }).1
      { mountIDs := [], fsType := "nfs" } rfl,
    (C7_resolution_precedence (fun _ => testImpl)
      { refCounts := { counts := fun _ => 0, initSuccess := true, isDirty := false },
        mountedVols := [("v", { mountIDs := [], fsType := "nfs" })], remoteDirs := [] }
      "v" { name := "v", options := [("type", "vmdk")] }).2.2.2.1 "vmdk" rfl⟩

/-- A second qualifying name in the remainder of the refmap forces the
`GetNameFromRefmap` loop, already past its first match, to return `""`. -/
theorem refmapGo_second_match (volName : String) (l : List String)
    (count : Nat) (fullname : String) (hcount : 1 ≤ count)
    (hex : ∃ n ∈ l, (splitOnChar '@' n).headD "" = volName) :
    refmapGo volName l count fullname = "" := by
  induction l with
  | nil => simp at hex
  | cons n rest ih =>
    by_cases h : (splitOnChar '@' n).headD "" = volName
    · have hc : ¬ (splitOnChar '@' n).headD "" ≠ volName := by simpa using h
      have hgt : count > 0 := hcount
      simp only [refmapGo, if_neg hc, if_pos hgt]
    · rcases hex with ⟨m, hm, hmatch⟩
      rcases List.mem_cons.mp hm with rfl | hmem
      · exact absurd hmatch h
      · simp only [refmapGo, if_pos h]
        exact ih ⟨m, hmem, hmatch⟩

/-- With at least two qualifying names in the refmap, the loop started fresh
returns `""`. -/
theorem refmapGo_ambiguous (volName : String) (l : List String)
    (hmulti : 2 ≤ (l.filter
      (fun n => (splitOnChar '@' n).headD "" = volName)).length) :
    refmapGo volName l 0 "" = "" := by
  induction l with
  | nil => simp at hmulti
  | cons n rest ih =>
    by_cases h : (splitOnChar '@' n).headD "" = volName
    · have hlen : 1 ≤ (rest.filter
          (fun m => (splitOnChar '@' m).headD "" = volName)).length := by
        rw [List.filter_cons] at hmulti
        simp only [h, decide_True, if_true] at hmulti
        simpa using Nat.le_of_succ_le_succ hmulti
      have hne : rest.filter (fun m => (splitOnChar '@' m).headD "" = volName) ≠ [] := by
        intro habs
        rw [habs] at hlen
        simp at hlen
      obtain ⟨m, hmem⟩ := List.exists_mem_of_ne_nil _ hne
      have hm := List.mem_filter.mp hmem
      have hc : ¬ (splitOnChar '@' n).headD "" ≠ volName := by simpa using h
      simp only [refmapGo, if_neg hc, if_neg (by omega : ¬ (0 : Nat) > 0)]
      exact refmapGo_second_match volName rest 1 n (by omega)
        ⟨m, hm.1, by simpa using hm.2⟩
    · rw [List.filter_cons] at hmulti
      simp only [h, decide_False, if_false] at hmulti
      simp only [refmapGo, if_pos h]
      exact ih hmulti

/-- C8: a bare name matching two or more fully-qualified refmap names is not
resolved by guessing: the refmap lookup yields no candidate, and when the
metadata fallback also fails the whole resolution fails. -/
theorem C8_ambiguous_bare_name (volumeNameList : List String) (name : String)
    (getVolume : String → Except String (List (String × String)))
    (hbare : name.data.contains '@' = false)
    (hmulti : 2 ≤ (volumeNameList.filter
      (fun n => (splitOnChar '@' n).headD "" = name)).length) :
    GetNameFromRefmap name volumeNameList = "" ∧
    (∀ e, getVolume name = .error e →
      GetFullNameAndMeta name "" volumeNameList getVolume = .error e) := by
  have href : GetNameFromRefmap name volumeNameList = "" :=
    refmapGo_ambiguous name volumeNameList hmulti
  refine ⟨href, ?_⟩
  intro e he
  simp [GetFullNameAndMeta, hbare, href, GetDatastore, he]
  simpa using hbare

/-- C8 witness: "v" matches both "v@ds1" and "v@ds2" and the metadata
fallback fails. -/
theorem C8_ambiguous_bare_name_witness :
    (("v" : String).data.contains '@' = false ∧
      2 ≤ (["v@ds1", "w@ds1", "v@ds2"].filter
        (fun n => (splitOnChar '@' n).headD "" = "v")).length) ∧
    (GetNameFromRefmap "v" ["v@ds1", "w@ds1", "v@ds2"] = "" ∧
      GetFullNameAndMeta "v" "" ["v@ds1", "w@ds1", "v@ds2"]
        (fun _ => .error "metadata unavailable") = .error "metadata unavailable") :=
  ⟨⟨by decide, by decide⟩,
    (C8_ambiguous_bare_name ["v@ds1", "w@ds1", "v@ds2"] "v"
      (fun _ => .error "metadata unavailable") (by decide) (by decide)).1,
    (C8_ambiguous_bare_name ["v@ds1", "w@ds1", "v@ds2"] "v"
      (fun _ => .error "metadata unavailable") (by decide) (by decide)).2
      "metadata unavailable" rfl⟩

/-- Entry contributed by one mount-table line: defined when the line has at
least two fields and the mount path's parent directory is the mount root,
keyed by the mount path's base name, valued by the device field. -/
def mountEntryOfLine (mountRoot : String) (line : String) : Option (String × String) :=
  match goFields line with
  | dev :: mpath :: _ =>
    if goDir mpath = mountRoot then some (goBase mpath, dev) else none
  | _ => none

/-- Lookup over an appended association list: the left part wins. -/
theorem lookup_append {α : Type} (k : String) (l₁ l₂ : List (String × α)) :
    (l₁ ++ l₂).lookup k
      = match l₁.lookup k with
        | some v => some v
        | none => l₂.lookup k := by
  induction l₁ with
  | nil => rfl
  | cons p t ih =>
    obtain ⟨a, b⟩ := p
    cases hb : (k == a) with
    | true => simp only [List.cons_append, List.lookup_cons, hb]
    | false => simpa only [List.cons_append, List.lookup_cons, hb] using ih

/-- Erasing a different key leaves lookup unchanged. -/
theorem lookup_eraseKey_ne {α : Type} (k b : String) (h : k ≠ b)
    (l : List (String × α)) : (eraseKey b l).lookup k = l.lookup k := by
  induction l with
  | nil => rfl
  | cons p t ih =>
    obtain ⟨a, c⟩ := p
    rw [eraseKey, List.filter_cons]
    by_cases ha : a = b
    · have hc : (decide ¬(a, c).1 = b) = false := by simp [ha]
      rw [hc]
      have hka : (k == a) = false := beq_eq_false_iff_ne.mpr (by rw [ha]; exact h)
      have hshow : ((a, c) :: t).lookup k = t.lookup k := by
        simp only [List.lookup_cons, hka]
      rw [hshow]
      exact ih
    · have hc : (decide ¬(a, c).1 = b) = true := by simp [ha]
      rw [hc]
      show ((a, c) :: eraseKey b t).lookup k = ((a, c) :: t).lookup k
      cases hka : (k == a) with
      | true => simp only [List.lookup_cons, hka]
      | false => simpa only [List.lookup_cons, hka] using ih

/-- A last-write-wins update behaves like plain cons for lookup. -/
theorem lookup_upsert {α : Type} (k b : String) (v : α) (l : List (String × α)) :
    (upsert b v l).lookup k = ((b, v) :: l).lookup k := by
  by_cases h : k = b
  · subst h
    simp only [upsert, List.lookup_cons, beq_self_eq_true]
  · have hf : (k == b) = false := beq_eq_false_iff_ne.mpr h
    simp only [upsert, List.lookup_cons, hf]
    exact lookup_eraseKey_ne k b h l

/-- The imperative `GetMountInfo` loop, started from any accumulator, looks
up like the declarative per-line entry list (later lines shadowing earlier
ones, which shadow the accumulator). -/
theorem goMountLines_lookup (mountRoot : String) (lines : List String)
    (m : List (String × String)) (k : String) :
    (goMountLines mountRoot lines m).lookup k
      = ((lines.filterMap (mountEntryOfLine mountRoot)).reverse ++ m).lookup k := by
  induction lines generalizing m with
  | nil => simp [goMountLines]
  | cons line rest ih =>
    cases hf : goFields line with
    | nil =>
      simp only [goMountLines, hf, List.filterMap_cons, mountEntryOfLine]
      exact ih m
    | cons dev restf =>
      cases restf with
      | nil =>
        simp only [goMountLines, hf, List.filterMap_cons, mountEntryOfLine]
        exact ih m
      | cons mpath tail =>
        by_cases hd : goDir mpath ≠ mountRoot
        · simp only [goMountLines, hf, List.filterMap_cons, mountEntryOfLine, if_pos hd,
            if_neg (by simpa using hd)]
          exact ih m
        · have hd' : goDir mpath = mountRoot := by simpa using hd
          simp only [goMountLines, hf, List.filterMap_cons, mountEntryOfLine, if_neg hd,
            if_pos hd']
          rw [ih (upsert (goBase mpath) dev m)]
          rw [List.reverse_cons, List.append_assoc, List.singleton_append]
          rw [lookup_append, lookup_append]
          rw [lookup_upsert]

/-- Lookup in an association list with duplicate-free keys is exactly
membership. -/
theorem lookup_mem_of_nodup (l : List (String × String)) (k v : String)
    (h : (l.map Prod.fst).Nodup) : l.lookup k = some v ↔ (k, v) ∈ l := by
  induction l with
  | nil => simp
  | cons p t ih =>
    obtain ⟨a, b⟩ := p
    simp only [List.map_cons, List.nodup_cons] at h
    obtain ⟨hna, hnd⟩ := h
    by_cases hk : k = a
    · subst hk
      simp only [List.lookup_cons, beq_self_eq_true]
      constructor
      · intro hv
        rw [List.mem_cons]
        exact Or.inl (by simpa using hv.symm)
      · intro hm
        rcases List.mem_cons.mp hm with heq | hmem
        · simpa using heq.symm
        · exact absurd (List.mem_map_of_mem Prod.fst hmem) hna
    · have hf : (k == a) = false := beq_eq_false_iff_ne.mpr hk
      simp only [List.lookup_cons, hf]
      rw [ih hnd, List.mem_cons]
      simp [Prod.ext_iff, hk]

/-- C9: for a readable mount table, the snapshot map contains exactly the
entries of lines with at least two fields whose mount path's parent equals
the root, keyed by the path's base name, valued by the device field. -/
theorem C9_mount_table_snapshot (data mountRoot k v : String)
    (hnodup : (((splitOnChar '\n' data).filterMap
      (mountEntryOfLine mountRoot)).map Prod.fst).Nodup) :
    (GetMountInfo (.ok data) mountRoot).1.lookup k = some v ↔
      (k, v) ∈ (splitOnChar '\n' data).filterMap (mountEntryOfLine mountRoot) := by
  have h1 : (GetMountInfo (.ok data) mountRoot).1
      = goMountLines mountRoot (splitOnChar '\n' data) [] := rfl
  rw [h1, goMountLines_lookup, List.append_nil]
  have hrev : ((((splitOnChar '\n' data).filterMap
      (mountEntryOfLine mountRoot)).reverse).map Prod.fst).Nodup := by
    rw [List.map_reverse]
    exact List.nodup_reverse.mpr hnodup
  rw [lookup_mem_of_nodup _ k v hrev, List.mem_reverse]

/-- C9 witness: a concrete four-line mount table with two entries under the
root, one short line and one entry elsewhere. -/
theorem C9_mount_table_snapshot_witness :
    ((((splitOnChar '\n'
        "/dev/sdb /mnt/vmdk/vol1 ext2 rw 0 0\n/dev/sdc /mnt/vmdk/vol2 ext4 rw 0 0\nbad\n/dev/sdd /other/v ext4 rw 0 0").filterMap
      (mountEntryOfLine "/mnt/vmdk")).map Prod.fst).Nodup) ∧
    ((GetMountInfo (.ok
        "/dev/sdb /mnt/vmdk/vol1 ext2 rw 0 0\n/dev/sdc /mnt/vmdk/vol2 ext4 rw 0 0\nbad\n/dev/sdd /other/v ext4 rw 0 0")
        "/mnt/vmdk").1.lookup "vol1" = some "/dev/sdb" ↔
      ("vol1", "/dev/sdb") ∈ (splitOnChar '\n'
        "/dev/sdb /mnt/vmdk/vol1 ext2 rw 0 0\n/dev/sdc /mnt/vmdk/vol2 ext4 rw 0 0\nbad\n/dev/sdd /other/v ext4 rw 0 0").filterMap
        (mountEntryOfLine "/mnt/vmdk")) :=
  ⟨by decide,
    C9_mount_table_snapshot
      "/dev/sdb /mnt/vmdk/vol1 ext2 rw 0 0\n/dev/sdc /mnt/vmdk/vol2 ext4 rw 0 0\nbad\n/dev/sdd /other/v ext4 rw 0 0"
      "/mnt/vmdk" "vol1" "/dev/sdb" (by decide)⟩

end DVS
